import Mathlib

/-!
Shallow embedding of `solutions.py` (BlackScholes option pricer and
historical VaR) together with proofs about the claims of its
specification.  Python floats are idealised as real numbers; Python
runtime values relevant to the type-validation logic are modelled by
the inductive type `PyValue`; a raising setter is modelled as an
`Except String` returning function.
-/

noncomputable section

/-- Python runtime values that can reach the validating setters of
`BlackScholes` and `VaR`: ints, bools, floats, strings, plain lists and
numpy arrays (whose elements may themselves be arbitrary values). -/
inductive PyValue where
  | int : Int → PyValue
  | bool : Bool → PyValue
  | float : ℝ → PyValue
  | str : String → PyValue
  | pylist : List PyValue → PyValue
  | ndarray : List PyValue → PyValue

/-- Python `isinstance(value, (int, float))`.  `bool` is a subclass of
`int` in Python, so booleans pass this check. -/
def isNumeric : PyValue → Bool
  | .int _ => true
  | .bool _ => true
  | .float _ => true
  | _ => false

/-- Python `isinstance(value, np.ndarray)`: only the array type itself
passes, regardless of the element dtype. -/
def isNdarray : PyValue → Bool
  | .ndarray _ => true
  | _ => false

/-- Python `isinstance(value, str)`. -/
def isStr : PyValue → Bool
  | .str _ => true
  | _ => false

/-- The numeric content of a Python value as used by arithmetic:
`True` behaves as 1 and `False` as 0.  Non-numeric values never reach
arithmetic in the validated states, so they get a junk value. -/
def toReal : PyValue → ℝ
  | .int n => (n : ℝ)
  | .bool b => if b then 1 else 0
  | .float x => x
  | _ => 0

/-- A parsed calendar date, the stored form of `datetime.strptime(value,
"%Y-%m-%d")`. -/
structure Date where
  year : Nat
  month : Nat
  day : Nat
deriving DecidableEq

/-- Gregorian leap-year rule, as used by Python's `datetime`. -/
def isLeap (y : Nat) : Bool := y % 4 = 0 && (y % 100 != 0 || y % 400 = 0)

/-- Number of days in a month of a given year. -/
def daysInMonth (y m : Nat) : Nat :=
  if m = 2 then (if isLeap y then 29 else 28)
  else if m = 4 ∨ m = 6 ∨ m = 9 ∨ m = 11 then 30
  else 31

/-- Days in year `y` strictly before month `m`. -/
def daysBeforeMonth (y m : Nat) : Nat :=
  (List.range (m - 1)).foldl (fun acc i => acc + daysInMonth y (i + 1)) 0

/-- Days strictly before year `y` in the proleptic Gregorian calendar
(mirrors Python's `date.toordinal` bookkeeping). -/
def daysBeforeYear (y : Nat) : Nat :=
  365 * (y - 1) + (y - 1) / 4 + (y - 1) / 400 - (y - 1) / 100

/-- Proleptic Gregorian ordinal of a date, as in Python's
`date.toordinal`; the difference of two ordinals is
`(d2 - d1).days`. -/
def toOrdinal (d : Date) : Nat :=
  daysBeforeYear d.year + daysBeforeMonth d.year d.month + d.day

/-- Split a character list into the dash-separated groups. -/
def splitDash : List Char → List (List Char)
  | [] => [[]]
  | c :: cs =>
    if c = '-' then [] :: splitDash cs
    else
      match splitDash cs with
      | g :: gs => (c :: g) :: gs
      | [] => [[c]]

/-- The numeric value of a nonempty all-digit character group; `none`
for an empty group or any non-digit character. -/
def digitsVal (cs : List Char) : Option Nat :=
  if cs = [] then none
  else
    cs.foldl
      (fun acc c =>
        match acc with
        | none => none
        | some n => if c.isDigit then some (n * 10 + (c.toNat - 48)) else none)
      (some 0)

/-- Model of `datetime.strptime(s, "%Y-%m-%d")`: a 4-digit year, a dash, a 1-2
digit month in 1..12, a dash, a 1-2 digit day valid for that month, and
nothing else; year 0 is rejected (`datetime.MINYEAR = 1`). -/
def parseDate (s : String) : Option Date :=
  match splitDash s.toList with
  | [ys, ms, ds] =>
    match digitsVal ys, digitsVal ms, digitsVal ds with
    | some y, some m, some d =>
      if ys.length = 4 ∧ ms.length ≤ 2 ∧ ds.length ≤ 2
          ∧ 1 ≤ y ∧ 1 ≤ m ∧ m ≤ 12 ∧ 1 ≤ d ∧ d ≤ daysInMonth y m
      then some ⟨y, m, d⟩ else none
    | _, _, _ => none
  | _ => none

/-- The validated state of a `BlackScholes` object: dates are stored
parsed, the numeric fields store the Python value that passed the
`isinstance(value, (int, float))` check. -/
structure BlackScholes where
  trade_date : Date
  expiry_date : Date
  S : PyValue
  K : PyValue
  r : PyValue
  sigma : PyValue

/-- Body of the `trade_date` setter: reject non-strings, then parse. -/
def BlackScholes.validate_trade_date (value : PyValue) : Except String Date :=
  match value with
  | .str s =>
    match parseDate s with
    | some d => .ok d
    | none => .error "trade_date should be correctly formmated: '%Y-%m-%d (e.g '2024-10-15')"
  | _ => .error "trade_date should be a string"

/-- Body of the `expiry_date` setter.  Its error messages are copied
verbatim from the source, where they (mistakenly) name `trade_date`. -/
def BlackScholes.validate_expiry_date (value : PyValue) : Except String Date :=
  match value with
  | .str s =>
    match parseDate s with
    | some d => .ok d
    | none => .error "trade_date should be correctly formmated: '%Y-%m-%d (e.g '2024-10-15')"
  | _ => .error "trade_date should be a string"

/-- Body of the `S` setter. -/
def BlackScholes.validate_S (value : PyValue) : Except String PyValue :=
  if isNumeric value then .ok value
  else .error "Spot price (S) must be an integer or float"

/-- Body of the `K` setter. -/
def BlackScholes.validate_K (value : PyValue) : Except String PyValue :=
  if isNumeric value then .ok value
  else .error "Exercise price (K) must be an integer or float"

/-- Body of the `r` setter. -/
def BlackScholes.validate_r (value : PyValue) : Except String PyValue :=
  if isNumeric value then .ok value
  else .error "Risk free rate (r) must be an integer or float"

/-- Body of the `sigma` setter. -/
def BlackScholes.validate_sigma (value : PyValue) : Except String PyValue :=
  if isNumeric value then .ok value
  else .error "sigma must be an integer or float"

/-- Assignment `bs.trade_date = value` on an existing object. -/
def BlackScholes.set_trade_date (bs : BlackScholes) (value : PyValue) :
    Except String BlackScholes :=
  (BlackScholes.validate_trade_date value).map fun d => { bs with trade_date := d }

/-- Assignment `bs.expiry_date = value` on an existing object. -/
def BlackScholes.set_expiry_date (bs : BlackScholes) (value : PyValue) :
    Except String BlackScholes :=
  (BlackScholes.validate_expiry_date value).map fun d => { bs with expiry_date := d }

/-- Assignment `bs.S = value` on an existing object. -/
def BlackScholes.set_S (bs : BlackScholes) (value : PyValue) :
    Except String BlackScholes :=
  (BlackScholes.validate_S value).map fun v => { bs with S := v }

/-- Assignment `bs.K = value` on an existing object. -/
def BlackScholes.set_K (bs : BlackScholes) (value : PyValue) :
    Except String BlackScholes :=
  (BlackScholes.validate_K value).map fun v => { bs with K := v }

/-- Assignment `bs.r = value` on an existing object. -/
def BlackScholes.set_r (bs : BlackScholes) (value : PyValue) :
    Except String BlackScholes :=
  (BlackScholes.validate_r value).map fun v => { bs with r := v }

/-- Assignment `bs.sigma = value` on an existing object. -/
def BlackScholes.set_sigma (bs : BlackScholes) (value : PyValue) :
    Except String BlackScholes :=
  (BlackScholes.validate_sigma value).map fun v => { bs with sigma := v }

/-- Constructor `BlackScholes.__init__`: runs the six setters in source order; the
first failure propagates. -/
def BlackScholes.init (td ed s k rr sg : PyValue) : Except String BlackScholes := do
  let d1 ← BlackScholes.validate_trade_date td
  let d2 ← BlackScholes.validate_expiry_date ed
  let vs ← BlackScholes.validate_S s
  let vk ← BlackScholes.validate_K k
  let vr ← BlackScholes.validate_r rr
  let vsg ← BlackScholes.validate_sigma sg
  pure ⟨d1, d2, vs, vk, vr, vsg⟩

/-- The state of a Python object after an attempted attribute
assignment: the new state if the setter succeeded, the unchanged old
state if it raised. -/
def attempt {σ : Type} (f : σ → PyValue → Except String σ) (s : σ) (v : PyValue) : σ :=
  match f s v with
  | .ok s2 => s2
  | .error _ => s

/-- Standard normal cumulative distribution function (the external
`scipy.stats.norm.cdf` collaborator). -/
def normCdf (x : ℝ) : ℝ :=
  (∫ t in Set.Iic x, Real.exp (-(t ^ 2) / 2)) / Real.sqrt (2 * Real.pi)

/-- Method `BlackScholes.T`: `(expiry_date - trade_date).days / 365`. -/
def BlackScholes.T (bs : BlackScholes) : ℝ :=
  (((toOrdinal bs.expiry_date : ℤ) - (toOrdinal bs.trade_date : ℤ) : ℤ) : ℝ) / 365

/-- Method `BlackScholes.F`: `S * exp(r * T)`. -/
def BlackScholes.F (bs : BlackScholes) : ℝ :=
  toReal bs.S * Real.exp (toReal bs.r * bs.T)

/-- Method `BlackScholes.d1`. -/
def BlackScholes.d1 (bs : BlackScholes) : ℝ :=
  (Real.log (bs.F / toReal bs.K) + (toReal bs.sigma ^ 2 / 2) * bs.T)
    / (toReal bs.sigma * Real.sqrt bs.T)

/-- Method `BlackScholes.d2`. -/
def BlackScholes.d2 (bs : BlackScholes) : ℝ :=
  bs.d1 - toReal bs.sigma * Real.sqrt bs.T

/-- Method `BlackScholes.C`: the call price. -/
def BlackScholes.C (bs : BlackScholes) : ℝ :=
  Real.exp (-toReal bs.r * bs.T) * (bs.F * normCdf bs.d1 - toReal bs.K * normCdf bs.d2)

/-- Method `BlackScholes.P`: the put price, computed from the call price. -/
def BlackScholes.P (bs : BlackScholes) : ℝ :=
  bs.C - toReal bs.S + toReal bs.K * Real.exp (-toReal bs.r * bs.T)

/-- The validated state of a `VaR` object. -/
structure VaR where
  market_rate_1 : PyValue
  market_rate_2 : PyValue
  S1 : PyValue
  S2 : PyValue

/-- Body of the `market_rate_1` setter: only the ndarray type check. -/
def VaR.validate_market_rate_1 (value : PyValue) : Except String PyValue :=
  if isNdarray value then .ok value
  else .error "The market rates of currency 1 (market_rate_1) should be a numpy array."

/-- Body of the `market_rate_2` setter: only the ndarray type check. -/
def VaR.validate_market_rate_2 (value : PyValue) : Except String PyValue :=
  if isNdarray value then .ok value
  else .error "The market rates of currency 2 (market_rate_2) should be a numpy array."

/-- Body of the `S1` setter. -/
def VaR.validate_S1 (value : PyValue) : Except String PyValue :=
  if isNumeric value then .ok value
  else .error "Total value of holdings in currency 1 (S1) should be integer or float"

/-- Body of the `S2` setter. -/
def VaR.validate_S2 (value : PyValue) : Except String PyValue :=
  if isNumeric value then .ok value
  else .error "Total value of holdings in currency 2 (S2) hould be integer or float"

/-- Assignment `v.market_rate_1 = value` on an existing object. -/
def VaR.set_market_rate_1 (w : VaR) (value : PyValue) : Except String VaR :=
  (VaR.validate_market_rate_1 value).map fun x => { w with market_rate_1 := x }

/-- Assignment `v.market_rate_2 = value` on an existing object. -/
def VaR.set_market_rate_2 (w : VaR) (value : PyValue) : Except String VaR :=
  (VaR.validate_market_rate_2 value).map fun x => { w with market_rate_2 := x }

/-- Assignment `v.S1 = value` on an existing object. -/
def VaR.set_S1 (w : VaR) (value : PyValue) : Except String VaR :=
  (VaR.validate_S1 value).map fun x => { w with S1 := x }

/-- Assignment `v.S2 = value` on an existing object. -/
def VaR.set_S2 (w : VaR) (value : PyValue) : Except String VaR :=
  (VaR.validate_S2 value).map fun x => { w with S2 := x }

/-- Constructor `VaR.__init__`: the four setters in source order. -/
def VaR.init (m1 m2 s1 s2 : PyValue) : Except String VaR := do
  let a ← VaR.validate_market_rate_1 m1
  let b ← VaR.validate_market_rate_2 m2
  let c ← VaR.validate_S1 s1
  let d ← VaR.validate_S2 s2
  pure ⟨a, b, c, d⟩

/-- The numeric content of a stored numpy array, when every element is
numeric; numpy raises on the arithmetic otherwise. -/
def asRealList : PyValue → Option (List ℝ)
  | .ndarray xs => if xs.all isNumeric then some (xs.map toReal) else none
  | _ => none

/-- Method `VaR.pnl_vector`: `(np.exp(np.log(market_rate[:-1] / market_rate[1:])) - 1) * S`,
elementwise over consecutive pairs. -/
def VaR.pnl_vector (S : ℝ) (market_rate : List ℝ) : List ℝ :=
  List.zipWith (fun a b => (Real.exp (Real.log (a / b)) - 1) * S)
    market_rate.dropLast market_rate.tail

/-- numpy elementwise `+`: defined only for equal-length vectors
(a broadcast error otherwise). -/
def addVec (xs ys : List ℝ) : Option (List ℝ) :=
  if xs.length = ys.length then some (List.zipWith (· + ·) xs ys) else none

/-- Property `VaR.total_pnl`: the sorted sum of the two per-currency PnL
vectors. -/
def VaR.total_pnl (w : VaR) : Option (List ℝ) := do
  let r1 ← asRealList w.market_rate_1
  let r2 ← asRealList w.market_rate_2
  let t ← addVec (VaR.pnl_vector (toReal w.S1) r1) (VaR.pnl_vector (toReal w.S2) r2)
  pure (List.insertionSort (· ≤ ·) t)

/-- Property `VaR.var_1d`: `0.4 * total_pnl[1] + 0.6 * total_pnl[2]`; indexing
out of range raises. -/
def VaR.var_1d (w : VaR) : Option ℝ := do
  let t ← VaR.total_pnl w
  let a ← t.get? 1
  let b ← t.get? 2
  pure (0.4 * a + 0.6 * b)

/-- The example option of the source's main block and tests:
`BlackScholes('2022-11-23', '2023-05-10', 19, 17, 0.005, 0.3)`. -/
def sampleOption : BlackScholes :=
  ⟨⟨2022, 11, 23⟩, ⟨2023, 5, 10⟩, .int 19, .int 17, .float 0.005, .float 0.3⟩

/-- A sample VaR state with four rate observations per currency. -/
def sampleVaR : VaR :=
  ⟨.ndarray [.float 1, .float 2, .float 3, .float 4],
   .ndarray [.float 1, .float 2, .float 3, .float 4],
   .float 153084.81, .float 95891.51⟩

/-- A sample VaR state with only three rate observations per
currency. -/
def sampleVaRSmall : VaR :=
  ⟨.ndarray [.float 1, .float 2, .float 3],
   .ndarray [.float 1, .float 2, .float 3],
   .float 1, .float 1⟩

/-- C1: for every BlackScholes state the put price equals
`C - S + K * exp(-r * T)`: put-call parity holds exactly, the put
being computed from the call price `C` (itself the closed form
`exp(-r*T) * (F * Phi(d1) - K * Phi(d2))`) rather than from an
independent closed form. -/
theorem put_call_parity (bs : BlackScholes) :
    bs.P = bs.C - toReal bs.S + toReal bs.K * Real.exp (-toReal bs.r * bs.T)
    ∧ bs.C = Real.exp (-toReal bs.r * bs.T)
        * (bs.F * normCdf bs.d1 - toReal bs.K * normCdf bs.d2) :=
  ⟨rfl, rfl⟩

/-- C4: the time to expiry is the whole-day difference of the two
stored dates divided by 365 (fixed-365 convention); it is zero when
the dates coincide and negative when they are reversed, with no
guard. -/
theorem time_to_expiry_day_count (bs : BlackScholes) :
    bs.T = (((toOrdinal bs.expiry_date : ℤ) - (toOrdinal bs.trade_date : ℤ) : ℤ) : ℝ) / 365
    ∧ (bs.expiry_date = bs.trade_date → bs.T = 0)
    ∧ (toOrdinal bs.expiry_date < toOrdinal bs.trade_date → bs.T < 0) := by
  refine ⟨rfl, ?_, ?_⟩
  · intro h
    simp [BlackScholes.T, h]
  · intro h
    have hz : (((toOrdinal bs.expiry_date : ℤ) - (toOrdinal bs.trade_date : ℤ) : ℤ) : ℝ) < 0 := by
      have : ((toOrdinal bs.expiry_date : ℤ) - (toOrdinal bs.trade_date : ℤ) : ℤ) < 0 := by
        omega
      exact_mod_cast this
    exact div_neg_of_neg_of_pos hz (by norm_num)

/-- Witness for C4: equal dates give `T = 0` and reversed dates give a
negative `T`. -/
theorem time_to_expiry_day_count_witness :
    ((⟨⟨2022, 11, 23⟩, ⟨2022, 11, 23⟩, .int 19, .int 17, .float 0.005, .float 0.3⟩ :
        BlackScholes).expiry_date
      = (⟨⟨2022, 11, 23⟩, ⟨2022, 11, 23⟩, .int 19, .int 17, .float 0.005, .float 0.3⟩ :
        BlackScholes).trade_date)
    ∧ BlackScholes.T ⟨⟨2022, 11, 23⟩, ⟨2022, 11, 23⟩, .int 19, .int 17, .float 0.005, .float 0.3⟩ = 0
    ∧ toOrdinal (⟨⟨2023, 5, 10⟩, ⟨2022, 11, 23⟩, .int 19, .int 17, .float 0.005, .float 0.3⟩ :
        BlackScholes).expiry_date
        < toOrdinal (⟨⟨2023, 5, 10⟩, ⟨2022, 11, 23⟩, .int 19, .int 17, .float 0.005, .float 0.3⟩ :
        BlackScholes).trade_date
    ∧ BlackScholes.T ⟨⟨2023, 5, 10⟩, ⟨2022, 11, 23⟩, .int 19, .int 17, .float 0.005, .float 0.3⟩ < 0 :=
  ⟨rfl,
   (time_to_expiry_day_count _).2.1 rfl,
   by decide,
   (time_to_expiry_day_count _).2.2 (by decide)⟩

/-- C9 (code bug): the expiry-date setter rejects bad input, but both
of its error messages name `trade_date`, not the expiry-date field. -/
theorem expiry_date_error_names_wrong_field :
    BlackScholes.set_expiry_date sampleOption (.int 20221123)
      = .error "trade_date should be a string"
    ∧ BlackScholes.set_expiry_date sampleOption (.str "invalid")
      = .error "trade_date should be correctly formmated: '%Y-%m-%d (e.g '2024-10-15')" := by
  constructor
  · rfl
  · have h : parseDate "invalid" = none := by decide
    simp [BlackScholes.set_expiry_date, BlackScholes.validate_expiry_date, h, Except.map]

/-- C10: booleans pass the `isinstance(value, (int, float))` check of
every numeric field (bool is a subclass of int in Python), are stored
as given, and behave as 1/0 in later arithmetic. -/
theorem bool_passes_numeric_validation (bs : BlackScholes) (w : VaR) (b : Bool) :
    bs.set_S (.bool b) = .ok { bs with S := .bool b }
    ∧ bs.set_K (.bool b) = .ok { bs with K := .bool b }
    ∧ bs.set_r (.bool b) = .ok { bs with r := .bool b }
    ∧ bs.set_sigma (.bool b) = .ok { bs with sigma := .bool b }
    ∧ w.set_S1 (.bool b) = .ok { w with S1 := .bool b }
    ∧ w.set_S2 (.bool b) = .ok { w with S2 := .bool b }
    ∧ toReal (.bool true) = 1 ∧ toReal (.bool false) = 0
    ∧ BlackScholes.F { bs with S := .bool b }
        = (if b then (1 : ℝ) else 0) * Real.exp (toReal bs.r * bs.T) := by
  refine ⟨rfl, rfl, rfl, rfl, rfl, rfl, rfl, rfl, ?_⟩
  simp [BlackScholes.F, BlackScholes.T, toReal]

/-- C6: a wrong-typed assignment to any field of either class raises
that field's validation error and leaves the stored state unchanged
(atomicity on rejection): after a failed assignment the object is
exactly the prior object, so every prior value remains readable. -/
theorem wrong_type_assignment_atomic (bs : BlackScholes) (w : VaR)
    (v s a : PyValue) (hv : isNumeric v = false) (hs : isStr s = false)
    (ha : isNdarray a = false) :
    bs.set_S v = .error "Spot price (S) must be an integer or float"
    ∧ bs.set_K v = .error "Exercise price (K) must be an integer or float"
    ∧ bs.set_r v = .error "Risk free rate (r) must be an integer or float"
    ∧ bs.set_sigma v = .error "sigma must be an integer or float"
    ∧ w.set_S1 v = .error "Total value of holdings in currency 1 (S1) should be integer or float"
    ∧ w.set_S2 v = .error "Total value of holdings in currency 2 (S2) hould be integer or float"
    ∧ bs.set_trade_date s = .error "trade_date should be a string"
    ∧ bs.set_expiry_date s = .error "trade_date should be a string"
    ∧ w.set_market_rate_1 a
        = .error "The market rates of currency 1 (market_rate_1) should be a numpy array."
    ∧ w.set_market_rate_2 a
        = .error "The market rates of currency 2 (market_rate_2) should be a numpy array."
    ∧ attempt BlackScholes.set_S bs v = bs
    ∧ attempt BlackScholes.set_K bs v = bs
    ∧ attempt BlackScholes.set_r bs v = bs
    ∧ attempt BlackScholes.set_sigma bs v = bs
    ∧ attempt BlackScholes.set_trade_date bs s = bs
    ∧ attempt BlackScholes.set_expiry_date bs s = bs
    ∧ attempt VaR.set_S1 w v = w
    ∧ attempt VaR.set_S2 w v = w
    ∧ attempt VaR.set_market_rate_1 w a = w
    ∧ attempt VaR.set_market_rate_2 w a = w := by
  have ht : BlackScholes.validate_trade_date s = .error "trade_date should be a string" := by
    cases s <;> simp_all [BlackScholes.validate_trade_date, isStr]
  have he : BlackScholes.validate_expiry_date s = .error "trade_date should be a string" := by
    cases s <;> simp_all [BlackScholes.validate_expiry_date, isStr]
  refine ⟨?_, ?_, ?_, ?_, ?_, ?_, ?_, ?_, ?_, ?_, ?_, ?_, ?_, ?_, ?_, ?_, ?_, ?_, ?_, ?_⟩ <;>
    simp [BlackScholes.set_S, BlackScholes.set_K, BlackScholes.set_r, BlackScholes.set_sigma,
      BlackScholes.set_trade_date, BlackScholes.set_expiry_date,
      BlackScholes.validate_S, BlackScholes.validate_K, BlackScholes.validate_r,
      BlackScholes.validate_sigma, VaR.set_S1, VaR.set_S2, VaR.validate_S1, VaR.validate_S2,
      VaR.set_market_rate_1, VaR.set_market_rate_2, VaR.validate_market_rate_1,
      VaR.validate_market_rate_2, attempt, Except.map, hv, ha, ht, he]

/-- Witness for C6: rejected assignments at concrete wrong-typed
inputs leave the sample objects unchanged. -/
theorem wrong_type_assignment_atomic_witness :
    isNumeric (PyValue.str "invalid") = false
    ∧ isStr (PyValue.int 20221123) = false
    ∧ isNdarray (PyValue.pylist []) = false
    ∧ sampleOption.set_S (PyValue.str "invalid")
        = .error "Spot price (S) must be an integer or float"
    ∧ attempt BlackScholes.set_S sampleOption (PyValue.str "invalid") = sampleOption
    ∧ attempt BlackScholes.set_sigma sampleOption (PyValue.str "invalid") = sampleOption
    ∧ attempt VaR.set_market_rate_1 sampleVaR (PyValue.pylist []) = sampleVaR :=
  ⟨rfl, rfl, rfl,
   (wrong_type_assignment_atomic sampleOption sampleVaR (.str "invalid") (.int 20221123)
      (.pylist []) rfl rfl rfl).1,
   (wrong_type_assignment_atomic sampleOption sampleVaR (.str "invalid") (.int 20221123)
      (.pylist []) rfl rfl rfl).2.2.2.2.2.2.2.2.2.2.1,
   (wrong_type_assignment_atomic sampleOption sampleVaR (.str "invalid") (.int 20221123)
      (.pylist []) rfl rfl rfl).2.2.2.2.2.2.2.2.2.2.2.2.2.1,
   (wrong_type_assignment_atomic sampleOption sampleVaR (.str "invalid") (.int 20221123)
      (.pylist []) rfl rfl rfl).2.2.2.2.2.2.2.2.2.2.2.2.2.2.2.2.2.2.1⟩

/-- C7 counterexample: a numpy array whose elements are strings is a
genuine ndarray, so the rate setter accepts it even though it is not a
numeric array. -/
theorem market_rate_accepts_string_array :
    VaR.set_market_rate_1 sampleVaR (.ndarray [.str "a"])
      = .ok { sampleVaR with market_rate_1 := .ndarray [.str "a"] } := rfl

/-- C7 amended: an assignment to either rate series succeeds exactly
when the value is of the numpy-array type, regardless of its element
types; every non-array value is rejected. -/
theorem market_rate_accepted_iff_ndarray (w : VaR) (v : PyValue) :
    (VaR.set_market_rate_1 w v).isOk = isNdarray v
    ∧ (VaR.set_market_rate_2 w v).isOk = isNdarray v := by
  cases v <;>
    simp [VaR.set_market_rate_1, VaR.set_market_rate_2, VaR.validate_market_rate_1,
      VaR.validate_market_rate_2, isNdarray, Except.map, Except.isOk, Except.toBool]

/-- Unfolding step of the PnL vector on two leading observations. -/
theorem pnl_vector_cons (S a b : ℝ) (l : List ℝ) :
    VaR.pnl_vector S (a :: b :: l)
      = (Real.exp (Real.log (a / b)) - 1) * S :: VaR.pnl_vector S (b :: l) := by
  simp [VaR.pnl_vector, List.dropLast_cons₂]

/-- The PnL vector of an n-observation series has n-1 entries. -/
theorem pnl_vector_length (S : ℝ) (r : List ℝ) :
    (VaR.pnl_vector S r).length = r.length - 1 := by
  simp [VaR.pnl_vector, List.length_zipWith, List.length_dropLast, List.length_tail]

/-- Entry i of the PnL vector is the exp/log expression over the
consecutive rate pair at positions i and i+1. -/
theorem pnl_vector_get (S : ℝ) : ∀ (r : List ℝ) (i : Nat), i + 1 < r.length →
    (VaR.pnl_vector S r).get? i
      = some ((Real.exp (Real.log (r.getD i 0 / r.getD (i + 1) 0)) - 1) * S)
  | [], i, h => by simp at h
  | [a], i, h => by simp at h
  | a :: b :: l, 0, h => by
    simp [pnl_vector_cons]
  | a :: b :: l, i + 1, h => by
    have ih := pnl_vector_get S (b :: l) i (by simp at h ⊢; omega)
    simpa [pnl_vector_cons] using ih

/-- C3: for a position size S and an n-observation rate series with
n >= 2, the PnL vector is the (n-1)-vector whose entry i is
`(exp(ln(r[i] / r[i+1])) - 1) * S`. -/
theorem pnl_vector_spec (S : ℝ) (r : List ℝ) (h : 2 ≤ r.length) :
    (VaR.pnl_vector S r).length = r.length - 1
    ∧ ∀ i, i < r.length - 1 →
        (VaR.pnl_vector S r).get? i
          = some ((Real.exp (Real.log (r.getD i 0 / r.getD (i + 1) 0)) - 1) * S) :=
  ⟨pnl_vector_length S r, fun i hi => pnl_vector_get S r i (by omega)⟩

/-- Witness for C3 on the two-observation series [2, 1]. -/
theorem pnl_vector_spec_witness :
    2 ≤ ([2, 1] : List ℝ).length
    ∧ ((VaR.pnl_vector 1 [2, 1]).length = ([2, 1] : List ℝ).length - 1
       ∧ ∀ i, i < ([2, 1] : List ℝ).length - 1 →
          (VaR.pnl_vector 1 [2, 1]).get? i
            = some ((Real.exp (Real.log (([2, 1] : List ℝ).getD i 0
                / ([2, 1] : List ℝ).getD (i + 1) 0)) - 1) * 1)) :=
  ⟨by decide, pnl_vector_spec 1 [2, 1] (by decide)⟩

/-- C5 counterexample: at a negative rate the exp/log round-trip is
not the identity, so the PnL entry differs from
`(r[0] / r[1] - 1) * S`. -/
theorem pnl_roundtrip_counterexample :
    (VaR.pnl_vector 1 [-1, 1]).get? 0 ≠ some (((-1 : ℝ) / 1 - 1) * 1) := by
  intro hc
  rw [pnl_vector_get 1 [-1, 1] 0 (by decide)] at hc
  have h2 : (Real.exp (Real.log (([-1, 1] : List ℝ).getD 0 0 / ([-1, 1] : List ℝ).getD 1 0))
      - 1) * 1 = ((-1 : ℝ) / 1 - 1) * 1 := Option.some.inj hc
  have h3 : Real.log (((-1 : ℝ)) / 1) = 0 := by
    rw [show ((-1 : ℝ) / 1) = -1 by norm_num,
      show ((-1 : ℝ)) = -(1 : ℝ) by norm_num, Real.log_neg_eq_log, Real.log_one]
  simp only [List.getD_cons_zero, List.getD_cons_succ] at h2
  rw [h3, Real.exp_zero] at h2
  norm_num at h2

/-- C5 amended: whenever the consecutive ratio r[i]/r[i+1] is positive
(in particular for all-positive rate series) the exp/log round-trip is
the identity, so the PnL entry equals `(r[i] / r[i+1] - 1) * S`. -/
theorem pnl_roundtrip_of_pos_ratio (S : ℝ) (r : List ℝ) (i : Nat)
    (hi : i + 1 < r.length) (hpos : 0 < r.getD i 0 / r.getD (i + 1) 0) :
    (VaR.pnl_vector S r).get? i = some ((r.getD i 0 / r.getD (i + 1) 0 - 1) * S) := by
  rw [pnl_vector_get S r i hi, Real.exp_log hpos]

/-- Witness for C5 on the series [2, 1] with S = 1. -/
theorem pnl_roundtrip_of_pos_ratio_witness :
    0 + 1 < ([2, 1] : List ℝ).length
    ∧ 0 < ([2, 1] : List ℝ).getD 0 0 / ([2, 1] : List ℝ).getD 1 0
    ∧ (VaR.pnl_vector 1 [2, 1]).get? 0
        = some ((([2, 1] : List ℝ).getD 0 0 / ([2, 1] : List ℝ).getD 1 0 - 1) * 1) :=
  ⟨by decide, by norm_num [List.getD_cons_zero, List.getD_cons_succ],
   pnl_roundtrip_of_pos_ratio 1 [2, 1] 0 (by decide)
     (by norm_num [List.getD_cons_zero, List.getD_cons_succ])⟩

/-- Numeric-content extraction succeeds on an array of floats and
returns the underlying real list. -/
theorem asRealList_floats (r : List ℝ) :
    asRealList (.ndarray (r.map .float)) = some r := by
  have h1 : (r.map PyValue.float).all isNumeric = true := by
    rw [List.all_eq_true]
    intro x hx
    rcases List.mem_map.mp hx with ⟨y, _, rfl⟩
    rfl
  have h2 : ∀ (l : List ℝ), (l.map PyValue.float).map toReal = l := by
    intro l
    induction l with
    | nil => rfl
    | cons a t ih => simp [toReal, ih]
  simp [asRealList, h1, h2 r]

/-- With equal-length float arrays stored, `total_pnl` is the
insertion sort of the elementwise sum of the two PnL vectors. -/
theorem total_pnl_eq (w : VaR) (r1 r2 : List ℝ)
    (h1 : w.market_rate_1 = .ndarray (r1.map .float))
    (h2 : w.market_rate_2 = .ndarray (r2.map .float))
    (hlen : r1.length = r2.length) :
    w.total_pnl = some (List.insertionSort (· ≤ ·)
      (List.zipWith (· + ·) (VaR.pnl_vector (toReal w.S1) r1)
        (VaR.pnl_vector (toReal w.S2) r2))) := by
  have hl : (VaR.pnl_vector (toReal w.S1) r1).length
      = (VaR.pnl_vector (toReal w.S2) r2).length := by
    rw [pnl_vector_length, pnl_vector_length, hlen]
  simp [VaR.total_pnl, h1, h2, asRealList_floats, addVec, hl]

/-- C2: for a VaR state holding equal-length numeric rate arrays,
`total_pnl` is the ascending sort of the elementwise sum of the two
per-currency PnL vectors, and `var_1d` is exactly
`0.4 * total_pnl[1] + 0.6 * total_pnl[2]` whenever those two entries
exist. -/
theorem total_pnl_sorted_and_var_formula (w : VaR) (r1 r2 : List ℝ)
    (h1 : w.market_rate_1 = .ndarray (r1.map .float))
    (h2 : w.market_rate_2 = .ndarray (r2.map .float))
    (hlen : r1.length = r2.length) :
    ∃ t, w.total_pnl = some t
      ∧ t = List.insertionSort (· ≤ ·)
          (List.zipWith (· + ·) (VaR.pnl_vector (toReal w.S1) r1)
            (VaR.pnl_vector (toReal w.S2) r2))
      ∧ t.Sorted (· ≤ ·)
      ∧ t.Perm (List.zipWith (· + ·) (VaR.pnl_vector (toReal w.S1) r1)
          (VaR.pnl_vector (toReal w.S2) r2))
      ∧ ∀ a b, t.get? 1 = some a → t.get? 2 = some b →
          w.var_1d = some (0.4 * a + 0.6 * b) := by
  refine ⟨_, total_pnl_eq w r1 r2 h1 h2 hlen, rfl,
    List.sorted_insertionSort _ _, List.perm_insertionSort _ _, ?_⟩
  intro a b ha hb
  rw [List.get?_eq_getElem?] at ha hb
  simp [VaR.var_1d, total_pnl_eq w r1 r2 h1 h2 hlen, ha, hb]

/-- Witness for C2 on a four-observation sample with both series
[1, 2, 3, 4]. -/
theorem total_pnl_sorted_and_var_formula_witness :
    sampleVaR.market_rate_1 = .ndarray (([1, 2, 3, 4] : List ℝ).map .float)
    ∧ sampleVaR.market_rate_2 = .ndarray (([1, 2, 3, 4] : List ℝ).map .float)
    ∧ ([1, 2, 3, 4] : List ℝ).length = ([1, 2, 3, 4] : List ℝ).length
    ∧ ∃ t, sampleVaR.total_pnl = some t
        ∧ t = List.insertionSort (· ≤ ·)
            (List.zipWith (· + ·) (VaR.pnl_vector (toReal sampleVaR.S1) [1, 2, 3, 4])
              (VaR.pnl_vector (toReal sampleVaR.S2) [1, 2, 3, 4]))
        ∧ t.Sorted (· ≤ ·)
        ∧ t.Perm (List.zipWith (· + ·) (VaR.pnl_vector (toReal sampleVaR.S1) [1, 2, 3, 4])
            (VaR.pnl_vector (toReal sampleVaR.S2) [1, 2, 3, 4]))
        ∧ ∀ a b, t.get? 1 = some a → t.get? 2 = some b →
            sampleVaR.var_1d = some (0.4 * a + 0.6 * b) :=
  ⟨rfl, rfl, rfl,
   total_pnl_sorted_and_var_formula sampleVaR [1, 2, 3, 4] [1, 2, 3, 4] rfl rfl rfl⟩

/-- C8: with equal-length numeric rate series of n observations per
currency, `var_1d` returns a value exactly under the in-bounds
precondition n >= 4 (at least 3 entries in the sorted total-PnL
vector); with fewer observations the index access is out of range and
no value is produced. -/
theorem var_1d_needs_four_observations (w : VaR) (r1 r2 : List ℝ)
    (h1 : w.market_rate_1 = .ndarray (r1.map .float))
    (h2 : w.market_rate_2 = .ndarray (r2.map .float))
    (hlen : r1.length = r2.length) :
    (4 ≤ r1.length → (w.var_1d).isSome = true)
    ∧ (r1.length < 4 → w.var_1d = none) := by
  have ht := total_pnl_eq w r1 r2 h1 h2 hlen
  have hlt : (List.insertionSort (· ≤ ·)
      (List.zipWith (· + ·) (VaR.pnl_vector (toReal w.S1) r1)
        (VaR.pnl_vector (toReal w.S2) r2))).length = r1.length - 1 := by
    rw [(List.perm_insertionSort _ _).length_eq, List.length_zipWith,
      pnl_vector_length, pnl_vector_length, hlen]
    simp
  constructor
  · intro h4
    have hb1 : 1 < (List.insertionSort (· ≤ ·)
        (List.zipWith (· + ·) (VaR.pnl_vector (toReal w.S1) r1)
          (VaR.pnl_vector (toReal w.S2) r2))).length := by omega
    have hb2 : 2 < (List.insertionSort (· ≤ ·)
        (List.zipWith (· + ·) (VaR.pnl_vector (toReal w.S1) r1)
          (VaR.pnl_vector (toReal w.S2) r2))).length := by omega
    have ha : (List.insertionSort (· ≤ ·)
        (List.zipWith (· + ·) (VaR.pnl_vector (toReal w.S1) r1)
          (VaR.pnl_vector (toReal w.S2) r2))).get? 1
        = some ((List.insertionSort (· ≤ ·)
        (List.zipWith (· + ·) (VaR.pnl_vector (toReal w.S1) r1)
          (VaR.pnl_vector (toReal w.S2) r2))).get ⟨1, hb1⟩) :=
      List.get?_eq_some.mpr ⟨hb1, rfl⟩
    have hb : (List.insertionSort (· ≤ ·)
        (List.zipWith (· + ·) (VaR.pnl_vector (toReal w.S1) r1)
          (VaR.pnl_vector (toReal w.S2) r2))).get? 2
        = some ((List.insertionSort (· ≤ ·)
        (List.zipWith (· + ·) (VaR.pnl_vector (toReal w.S1) r1)
          (VaR.pnl_vector (toReal w.S2) r2))).get ⟨2, hb2⟩) :=
      List.get?_eq_some.mpr ⟨hb2, rfl⟩
    rw [List.get?_eq_getElem?] at ha hb
    simp [VaR.var_1d, ht, ha, hb]
  · intro h4
    have hb : (List.insertionSort (· ≤ ·)
        (List.zipWith (· + ·) (VaR.pnl_vector (toReal w.S1) r1)
          (VaR.pnl_vector (toReal w.S2) r2))).get? 2 = none :=
      List.get?_eq_none.mpr (by omega)
    rw [List.get?_eq_getElem?] at hb
    cases hq : (List.insertionSort (· ≤ ·)
        (List.zipWith (· + ·) (VaR.pnl_vector (toReal w.S1) r1)
          (VaR.pnl_vector (toReal w.S2) r2)))[1]? <;>
      simp [VaR.var_1d, ht, hq, hb]

/-- Witness for C8: four observations per currency give a value,
three do not. -/
theorem var_1d_needs_four_observations_witness :
    sampleVaR.market_rate_1 = .ndarray (([1, 2, 3, 4] : List ℝ).map .float)
    ∧ sampleVaR.market_rate_2 = .ndarray (([1, 2, 3, 4] : List ℝ).map .float)
    ∧ ([1, 2, 3, 4] : List ℝ).length = ([1, 2, 3, 4] : List ℝ).length
    ∧ 4 ≤ ([1, 2, 3, 4] : List ℝ).length
    ∧ sampleVaR.var_1d.isSome = true
    ∧ sampleVaRSmall.market_rate_1 = .ndarray (([1, 2, 3] : List ℝ).map .float)
    ∧ sampleVaRSmall.market_rate_2 = .ndarray (([1, 2, 3] : List ℝ).map .float)
    ∧ ([1, 2, 3] : List ℝ).length = ([1, 2, 3] : List ℝ).length
    ∧ ([1, 2, 3] : List ℝ).length < 4
    ∧ sampleVaRSmall.var_1d = none :=
  ⟨rfl, rfl, rfl, by decide,
   (var_1d_needs_four_observations sampleVaR [1, 2, 3, 4] [1, 2, 3, 4] rfl rfl rfl).1
     (by decide),
   rfl, rfl, rfl, by decide,
   (var_1d_needs_four_observations sampleVaRSmall [1, 2, 3] [1, 2, 3] rfl rfl rfl).2
     (by decide)⟩
